import Mathlib

/-!
Verification of the TSOTCHKE QRNG repository (documentation + TypeScript SDK
for an on-chain random-number service).  The TypeScript client
(`sdk/src/client.ts`, `sdk/src/types.ts`) and the documentation examples
(`docs/technical/mainnet-integration.md`) are embedded directly; the
on-chain program itself is not part of the repository, so the ledger and
dispatcher are modelled from the specification where a claim needs them.
-/

namespace SolanaQrng

/-- A byte buffer: a list of byte values (each intended `< 256`).  Mirrors a
Node.js `Buffer` as far as the claims need it. -/
abbrev Buffer := List Nat

/-- Error class thrown by the SDK client (`client.ts`, `class QrngError`).
Only the message is carried. -/
structure QrngError where
  message : String
deriving Repr, DecidableEq

/-- Instruction tags of the QRNG program (`sdk/src/types.ts`,
`enum QrngInstructionType`). -/
inductive QrngInstructionType where
  | INITIALIZE_PROGRAM
  | GENERATE_RANDOM_U64
  | GENERATE_RANDOM_DOUBLE
  | GENERATE_RANDOM_BOOLEAN
deriving Repr, DecidableEq

/-- Numeric value of each instruction tag (`types.ts` lines 26-31:
INITIALIZE_PROGRAM = 0, GENERATE_RANDOM_U64 = 1, GENERATE_RANDOM_DOUBLE = 2,
GENERATE_RANDOM_BOOLEAN = 3). -/
def QrngInstructionType.tag : QrngInstructionType → Nat
  | .INITIALIZE_PROGRAM => 0
  | .GENERATE_RANDOM_U64 => 1
  | .GENERATE_RANDOM_DOUBLE => 2
  | .GENERATE_RANDOM_BOOLEAN => 3

/-- Instruction payload built by the client (`client.ts` line 202:
`Buffer.from([instructionType])`): the single tag byte, nothing else. -/
def instructionData (t : QrngInstructionType) : Buffer := [t.tag]

/-- Value of a byte list read little-endian (first byte least significant). -/
def fromLEBytes : Buffer → Nat
  | [] => 0
  | b :: rest => b + 256 * fromLEBytes rest

/-- Node.js `Buffer.readBigUInt64LE(0)` as used by `client.ts` line 90:
interprets the first 8 bytes of the buffer as a little-endian unsigned
64-bit integer. -/
def readBigUInt64LE (b : Buffer) : Nat := fromLEBytes (b.take 8)

/-- Little-endian byte expansion: `toLEBytesAux n w` is the `n` low-order
bytes of `w`, least significant first. -/
def toLEBytesAux : Nat → Nat → Buffer
  | 0, _ => []
  | n + 1, w => w % 256 :: toLEBytesAux n (w / 256)

/-- Modelled from the spec: the on-chain wire encoding of a 64-bit
EntropyWord for GENERATE_RANDOM_U64 ("identity — raw EntropyWord,
little-endian byte order on the wire").  The on-chain program is not in
the repository; this follows the spec's words. -/
def u64ToLEBytes (w : Nat) : Buffer := toLEBytesAux 8 w

theorem toLEBytesAux_length (n w : Nat) : (toLEBytesAux n w).length = n := by
  induction n generalizing w with
  | zero => rfl
  | succ n ih => simp [toLEBytesAux, ih]

theorem fromLEBytes_toLEBytesAux (n w : Nat) :
    fromLEBytes (toLEBytesAux n w) = w % 256 ^ n := by
  induction n generalizing w with
  | zero => simp [toLEBytesAux, fromLEBytes, Nat.mod_one]
  | succ n ih =>
      have h256 : (0:Nat) < 256 := by norm_num
      calc fromLEBytes (toLEBytesAux (n + 1) w)
          = w % 256 + 256 * (w / 256 % 256 ^ n) := by
            simp [toLEBytesAux, fromLEBytes, ih]
        _ = w % (256 * 256 ^ n) := (Nat.mod_mul).symm
        _ = w % 256 ^ (n + 1) := by ring_nf

/-- Decoding of the return buffer by `QrngClient.generateRandomU64`
(`client.ts` lines 86-91): buffers shorter than 8 bytes raise a
`QrngError`, otherwise `readBigUInt64LE(0)` is returned. -/
def decodeU64Return (result : Buffer) : Except QrngError Nat :=
  if result.length < 8 then
    .error ⟨"Invalid return data from QRNG service"⟩
  else
    .ok (readBigUInt64LE result)

/-- Decoding of the return buffer by `QrngClient.generateRandomDouble`
(`client.ts` lines 104-110).  The IEEE-754 value produced by
`readDoubleLE(0)` is not modelled as a real number; the decoder is embedded
as returning the 8 raw little-endian bytes that `readDoubleLE(0)` consumes,
which is enough for the length-guard behaviour the claims are about. -/
def decodeDoubleReturn (result : Buffer) : Except QrngError Buffer :=
  if result.length < 8 then
    .error ⟨"Invalid return data from QRNG service"⟩
  else
    .ok (result.take 8)

/-- Decoding of the return buffer by `QrngClient.generateRandomBoolean`
(`client.ts` lines 123-128): buffers shorter than 1 byte raise a
`QrngError`, otherwise the code returns `result[0] === 1` — true exactly
when the first byte equals 1. -/
def decodeBooleanReturn (result : Buffer) : Except QrngError Bool :=
  if result.length < 1 then
    .error ⟨"Invalid return data from QRNG service"⟩
  else
    .ok (result.headD 0 == 1)

/-- One entry of a transaction instruction's account list, with its signer
and writability flags (the `keys` entries of `client.ts` lines 209-216). -/
structure AccountMeta (α : Type) where
  pubkey : α
  isSigner : Bool
  isWritable : Bool
deriving Repr, DecidableEq

/-- The six public keys the client references when building a GENERATE_*
instruction (`client.ts` lines 172-215): the wallet, the two token
accounts, the token program, the config PDA and the clock sysvar.  Keys
are abstracted over an arbitrary address type `α`. -/
structure GenerateAccounts (α : Type) where
  walletPublicKey : α
  userTokenAccount : α
  treasuryTokenAccount : α
  tokenProgramId : α
  configPda : α
  sysvarClock : α

/-- A transaction instruction as the client constructs it: account list
plus instruction payload (`client.ts` lines 208-219). -/
structure TransactionInstruction (α : Type) where
  keys : List (AccountMeta α)
  data : Buffer
deriving Repr, DecidableEq

/-- The account list of the generate instruction, exactly as `client.ts`
lines 209-216 list it; the code builds the same list for every
instruction type. -/
def generateInstructionKeys {α : Type} (a : GenerateAccounts α) :
    List (AccountMeta α) :=
  [ ⟨a.walletPublicKey, true, true⟩,
    ⟨a.userTokenAccount, false, true⟩,
    ⟨a.treasuryTokenAccount, false, true⟩,
    ⟨a.tokenProgramId, false, false⟩,
    ⟨a.configPda, false, false⟩,
    ⟨a.sysvarClock, false, false⟩ ]

/-- The instruction `QrngClient.generateRandom` adds to its transaction
(`client.ts` lines 201-219): the fixed six-account list and the
single-byte instruction payload. -/
def buildGenerateInstruction {α : Type} (a : GenerateAccounts α)
    (t : QrngInstructionType) : TransactionInstruction α :=
  { keys := generateInstructionKeys a, data := instructionData t }

/-- What the chain environment supplies to one `generateRandom` call, with
the two token-account lookups assumed to have succeeded (they are external
platform calls): the fetched balance's `uiAmount` field (`null` is `none`),
and the transaction's return data after base64 decoding (`none` when the
confirmed transaction carries no return data). -/
structure ClientEnv where
  uiAmount : Option ℚ
  returnData : Option Buffer

/-- Observable outcome of one `QrngClient.generateRandom` call: whether a
transaction was submitted, the instruction it carried if so, and the
result or thrown `QrngError`. -/
structure GenerateRun (α : Type) where
  submitted : Bool
  instr : Option (TransactionInstruction α)
  result : Except QrngError Buffer

/-- `QrngClient.generateRandom` (`client.ts` lines 166-253): fetch the
balance (`uiAmount || 0`), throw before building or sending any
transaction when it is below 1.0, otherwise build the fixed instruction,
send the transaction, and fail if the confirmed transaction has no return
data.  The interpolated balance in the insufficient-funds message is
elided. -/
def generateRandom {α : Type} (a : GenerateAccounts α) (env : ClientEnv)
    (t : QrngInstructionType) : GenerateRun α :=
  let balance : ℚ := env.uiAmount.getD 0
  if balance < 1 then
    { submitted := false, instr := none,
      result := .error ⟨"Insufficient TSOTCHKE tokens."⟩ }
  else
    let instr := buildGenerateInstruction a t
    match env.returnData with
    | none =>
        { submitted := true, instr := some instr,
          result := .error ⟨"No return data found in transaction"⟩ }
    | some d =>
        { submitted := true, instr := some instr, result := .ok d }

/-- Token decimal places of the payment token, as the README's Solana
integration block documents them ("Token Decimals: 9"). -/
def tokenDecimals : Nat := 9

/-- Base units per 1.0 token at the documented 9 decimals. -/
def baseUnitsPerToken : Nat := 10 ^ tokenDecimals

/-- Modelled from the spec: `price_per_request`, the documented fixed
price of one GENERATE_* request — 1.0 token, i.e. `baseUnitsPerToken`
base units.  The on-chain program that stores and debits it is not in
the repository. -/
def pricePerRequestBaseUnits : Nat := 1 * baseUnitsPerToken

/-- The balance precondition check of the `main` walkthrough in
`docs/technical/mainnet-integration.md` lines 213-218: the example reads
the raw base-unit amount of the user token account and bails out iff
`Number(tokenBalance) < 1_000_000`, printing the balance divided by
1_000_000 as a whole-token amount. -/
def mainnetExampleHasEnoughTokens (tokenBalance : Nat) : Bool :=
  !(tokenBalance < 1000000)

/-- Modelled from the spec: the Config singleton of the on-chain program
(treasury token account, token mint, price per request); the program
itself is not in the repository.  Addresses are `Nat` identifiers. -/
structure Config where
  treasury_token_account : Nat
  token_mint : Nat
  price_per_request : Nat
deriving Repr, DecidableEq

/-- Modelled from the spec: the token balances (in base units) of the
requester's and the treasury's token accounts — the only externally
visible state a GENERATE_* instruction may change. -/
structure LedgerState where
  requesterBalance : Nat
  treasuryBalance : Nat
deriving Repr, DecidableEq

/-- Modelled from the spec: the failure taxonomy of one invocation
(spec section 7); every failure aborts the whole invocation. -/
inductive ProgramFailure where
  | unknownTag
  | accountMismatch
  | insufficientBalance
  | entropyUnavailable
  | reinitialization
  | uninitialized
deriving Repr, DecidableEq

/-- Modelled from the spec: `RequestLedger.debit_and_credit` — moves
exactly `price` base units from requester to treasury provided the
treasury account matches Config and the requester balance covers the
price; any failure leaves the transfer uncommitted. -/
def debit_and_credit (st : LedgerState) (price : Nat)
    (treasuryMatches : Bool) : Except ProgramFailure LedgerState :=
  if treasuryMatches = false then
    .error .accountMismatch
  else if st.requesterBalance < price then
    .error .insufficientBalance
  else
    .ok ⟨st.requesterBalance - price, st.treasuryBalance + price⟩

/-- The ledger state observable after a `debit_and_credit` attempt: the
transferred balances on success, the untouched balances on failure (the
host platform rolls back a failed invocation). -/
def debitResultState (st : LedgerState) (price : Nat)
    (treasuryMatches : Bool) : LedgerState :=
  match debit_and_credit st price treasuryMatches with
  | .ok st1 => st1
  | .error _ => st

/-- Modelled from the spec: the designated EntropyWord bit the boolean
output is taken from; the spec fixes only that it is a single designated
bit position, so the highest bit is chosen here. -/
def designatedBooleanBit : Nat := 63

/-- Modelled from the spec: the OutputFormatter's wire bytes for one
EntropyWord.  U64 is the identity little-endian; the double path's exact
IEEE-754 mantissa mapping is not modelled bit-exactly, only that it is 8
little-endian bytes derived deterministically from the word; the boolean
path is one byte carrying the designated bit.  INITIALIZE_PROGRAM has no
formatter output. -/
def formatOutputBytes (t : QrngInstructionType) (w : Nat) : Buffer :=
  match t with
  | .INITIALIZE_PROGRAM => []
  | .GENERATE_RANDOM_U64 => u64ToLEBytes w
  | .GENERATE_RANDOM_DOUBLE => u64ToLEBytes (w % 2 ^ 64)
  | .GENERATE_RANDOM_BOOLEAN =>
      [if Nat.testBit w designatedBooleanBit then 1 else 0]

/-- Modelled from the spec: one GENERATE_* invocation as the dispatcher
sees it — the tag, the treasury token account passed in the account list,
whether the clock entropy source is available, and the EntropyWord the
mixer produces for this request. -/
structure GenerateRequest where
  tag : QrngInstructionType
  treasuryAccount : Nat
  clockAvailable : Bool
  entropyWord : Nat
deriving Repr, DecidableEq

/-- Modelled from the spec: processing of a GENERATE_* instruction
(spec sections 4.3-4.4) — validate the tag, the treasury account against
Config and the entropy source, then execute the payment transfer
atomically with formatting; on success return the new ledger state
together with the emitted return data, on failure return an error and
commit nothing. -/
def processGenerate (cfg : Config) (st : LedgerState)
    (req : GenerateRequest) : Except ProgramFailure (LedgerState × Buffer) :=
  if req.tag = .INITIALIZE_PROGRAM then
    .error .unknownTag
  else if req.treasuryAccount ≠ cfg.treasury_token_account then
    .error .accountMismatch
  else if req.clockAvailable = false then
    .error .entropyUnavailable
  else
    match debit_and_credit st cfg.price_per_request true with
    | .error e => .error e
    | .ok st1 => .ok (st1, formatOutputBytes req.tag req.entropyWord)

/-- The ledger state observable after a GENERATE_* invocation: the new
balances on success, the untouched balances on failure — the host
platform rolls back every failed invocation. -/
def ledgerAfter (cfg : Config) (st : LedgerState) (req : GenerateRequest) :
    LedgerState :=
  match processGenerate cfg st req with
  | .ok (st1, _) => st1
  | .error _ => st

/-- The return data observable after a GENERATE_* invocation: `none` when
the invocation failed. -/
def emittedOutput (cfg : Config) (st : LedgerState) (req : GenerateRequest) :
    Option Buffer :=
  match processGenerate cfg st req with
  | .ok (_, out) => some out
  | .error _ => none

/-- Modelled from the spec: the program's persistent state — the Config
singleton (absent until INITIALIZE_PROGRAM) and the token ledger. -/
structure ProgramState where
  config : Option Config
  ledger : LedgerState
deriving Repr, DecidableEq

/-- Modelled from the spec: one instruction as submitted to the
dispatcher: the tag, the Config an INITIALIZE_PROGRAM would create, and
the fields a GENERATE_* needs. -/
structure DispatchRequest where
  tag : QrngInstructionType
  initConfig : Config
  treasuryAccount : Nat
  clockAvailable : Bool
  entropyWord : Nat
deriving Repr, DecidableEq

/-- Modelled from the spec: the ProgramDispatcher state machine
(spec section 4.4): INITIALIZE_PROGRAM creates the Config singleton and
is rejected when it already exists; GENERATE_* requires the Config and
runs `processGenerate`; every failure leaves the whole state unchanged. -/
def dispatch (st : ProgramState) (req : DispatchRequest) :
    ProgramState × Except ProgramFailure Buffer :=
  match req.tag with
  | .INITIALIZE_PROGRAM =>
      match st.config with
      | some _ => (st, .error .reinitialization)
      | none => ({ st with config := some req.initConfig }, .ok [])
  | t =>
      match st.config with
      | none => (st, .error .uninitialized)
      | some cfg =>
          match processGenerate cfg st.ledger
              ⟨t, req.treasuryAccount, req.clockAvailable, req.entropyWord⟩ with
          | .error e => (st, .error e)
          | .ok (l1, out) => ({ st with ledger := l1 }, .ok out)

/-- What the platform supplies to one `getTokenBalance` call: the outcome
of `getOrCreateAssociatedTokenAccount` (which may throw), and the outcome
of `getTokenAccountBalance` (which may throw, and whose `uiAmount` field
may be `null`). -/
structure BalanceEnv where
  ata : Except String Unit
  balanceLookup : Except String (Option ℚ)

/-- The body of `QrngClient.getTokenBalance` before its catch clause
(`client.ts` lines 138-152): look up the associated token account, fetch
its balance, and return `uiAmount || 0`. -/
def getTokenBalanceAttempt (env : BalanceEnv) : Except String ℚ :=
  match env.ata with
  | .error e => .error e
  | .ok _ =>
      match env.balanceLookup with
      | .error e => .error e
      | .ok ui => .ok (ui.getD 0)

/-- `QrngClient.getTokenBalance` (`client.ts` lines 137-157): the body
wrapped in try/catch, returning 0 on any error. -/
def getTokenBalance (env : BalanceEnv) : ℚ :=
  match getTokenBalanceAttempt env with
  | .ok q => q
  | .error _ => 0

/-- C7: every request's instruction payload is exactly one byte — the
instruction tag, with no further arguments — and the tag values are
INITIALIZE_PROGRAM = 0, GENERATE_RANDOM_U64 = 1, GENERATE_RANDOM_DOUBLE = 2,
GENERATE_RANDOM_BOOLEAN = 3; the instruction the client builds carries
exactly that payload. -/
theorem c7_single_byte_tag_payload :
    (∀ t : QrngInstructionType, instructionData t = [t.tag] ∧
      (instructionData t).length = 1) ∧
    (∀ (α : Type) (a : GenerateAccounts α) (t : QrngInstructionType),
      (buildGenerateInstruction a t).data = [t.tag]) ∧
    QrngInstructionType.tag .INITIALIZE_PROGRAM = 0 ∧
    QrngInstructionType.tag .GENERATE_RANDOM_U64 = 1 ∧
    QrngInstructionType.tag .GENERATE_RANDOM_DOUBLE = 2 ∧
    QrngInstructionType.tag .GENERATE_RANDOM_BOOLEAN = 3 :=
  ⟨fun _ => ⟨rfl, rfl⟩, fun _ _ _ => rfl, rfl, rfl, rfl, rfl⟩

/-- C6: for each of the three GENERATE_* tags the client builds the same
six-entry account list, in this order and with these flags: requester
(signer, writable), requester token account (writable), treasury token
account (writable), token program (read-only), config PDA (read-only),
clock sysvar (read-only). -/
theorem c6_generate_account_list (α : Type) (a : GenerateAccounts α) :
    (buildGenerateInstruction a .GENERATE_RANDOM_U64).keys =
      [ ⟨a.walletPublicKey, true, true⟩,
        ⟨a.userTokenAccount, false, true⟩,
        ⟨a.treasuryTokenAccount, false, true⟩,
        ⟨a.tokenProgramId, false, false⟩,
        ⟨a.configPda, false, false⟩,
        ⟨a.sysvarClock, false, false⟩ ] ∧
    (buildGenerateInstruction a .GENERATE_RANDOM_DOUBLE).keys =
      (buildGenerateInstruction a .GENERATE_RANDOM_U64).keys ∧
    (buildGenerateInstruction a .GENERATE_RANDOM_BOOLEAN).keys =
      (buildGenerateInstruction a .GENERATE_RANDOM_U64).keys ∧
    (buildGenerateInstruction a .GENERATE_RANDOM_U64).keys.length = 6 :=
  ⟨rfl, rfl, rfl, rfl⟩

/-- C3: the GENERATE_RANDOM_U64 path is the identity on the EntropyWord
through the wire — encoding any W < 2^64 as 8 little-endian bytes and
decoding with the client's u64 decoder returns exactly W. -/
theorem c3_u64_wire_roundtrip (w : Nat) (h : w < 2 ^ 64) :
    decodeU64Return (u64ToLEBytes w) = .ok w := by
  have hlen : (u64ToLEBytes w).length = 8 := toLEBytesAux_length 8 w
  unfold decodeU64Return
  rw [if_neg (by omega)]
  have htake : (u64ToLEBytes w).take 8 = u64ToLEBytes w :=
    List.take_of_length_le (by omega)
  have : readBigUInt64LE (u64ToLEBytes w) = w % 256 ^ 8 := by
    rw [readBigUInt64LE, htake]
    exact fromLEBytes_toLEBytesAux 8 w
  rw [this, Nat.mod_eq_of_lt (by norm_num at h ⊢; omega)]

/-- Witness for C3 at the concrete word 0x0123456789ABCDEF. -/
theorem c3_u64_wire_roundtrip_witness :
    81985529216486895 < 2 ^ 64 ∧
    decodeU64Return (u64ToLEBytes 81985529216486895) =
      .ok 81985529216486895 :=
  ⟨by norm_num, c3_u64_wire_roundtrip 81985529216486895 (by norm_num)⟩

/-- C2 counterexample: the claim says any nonzero first byte decodes to
true, but the client code compares with 1 — a return buffer whose first
byte is 2 (nonzero) decodes to false. -/
theorem c2_nonzero_byte_counterexample :
    decodeBooleanReturn [2] = Except.ok false ∧ (2 : Nat) ≠ 0 :=
  ⟨rfl, by decide⟩

/-- C2 (amended): for every nonempty boolean return buffer, the client
decodes true exactly when the first byte equals 1; every other byte
value, including nonzero values other than 1, decodes to false. -/
theorem c2_boolean_decode_eq_one (b : Buffer) (h : 1 ≤ b.length) :
    decodeBooleanReturn b = .ok (b.headD 0 == 1) := by
  unfold decodeBooleanReturn
  rw [if_neg (by omega)]

/-- Witness for the amended C2 at the concrete buffer [5]. -/
theorem c2_boolean_decode_eq_one_witness :
    1 ≤ ([5] : Buffer).length ∧
    decodeBooleanReturn [5] = .ok (([5] : Buffer).headD 0 == 1) :=
  ⟨by decide, c2_boolean_decode_eq_one [5] (by decide)⟩

/-- C9: every return buffer shorter than the requested width makes the
client throw the QrngError "Invalid return data from QRNG service"
instead of reading out of bounds: u64 and double require 8 bytes, boolean
requires 1 byte. -/
theorem c9_short_return_guards :
    (∀ b : Buffer, b.length < 8 →
      decodeU64Return b = .error ⟨"Invalid return data from QRNG service"⟩) ∧
    (∀ b : Buffer, b.length < 8 →
      decodeDoubleReturn b = .error ⟨"Invalid return data from QRNG service"⟩) ∧
    (∀ b : Buffer, b.length < 1 →
      decodeBooleanReturn b = .error ⟨"Invalid return data from QRNG service"⟩) := by
  refine ⟨fun b h => ?_, fun b h => ?_, fun b h => ?_⟩
  · unfold decodeU64Return; rw [if_pos h]
  · unfold decodeDoubleReturn; rw [if_pos h]
  · unfold decodeBooleanReturn; rw [if_pos h]

/-- Witness for C9 at concrete short buffers. -/
theorem c9_short_return_guards_witness :
    ([1, 2, 3] : Buffer).length < 8 ∧ ([] : Buffer).length < 1 ∧
    decodeU64Return [1, 2, 3] =
      .error ⟨"Invalid return data from QRNG service"⟩ ∧
    decodeDoubleReturn [1, 2, 3] =
      .error ⟨"Invalid return data from QRNG service"⟩ ∧
    decodeBooleanReturn [] =
      .error ⟨"Invalid return data from QRNG service"⟩ :=
  ⟨by decide, by decide,
   c9_short_return_guards.1 [1, 2, 3] (by decide),
   c9_short_return_guards.2.1 [1, 2, 3] (by decide),
   c9_short_return_guards.2.2 [] (by decide)⟩

/-- C1: every GENERATE_* invocation is atomic — either it succeeds, the
requester is debited exactly the price, the treasury is credited exactly
the price and return data is emitted, or it fails, the observable ledger
is unchanged and no output is emitted; no partial state exists. -/
theorem c1_generate_atomicity (cfg : Config) (st : LedgerState)
    (req : GenerateRequest) :
    (∃ st1 out, processGenerate cfg st req = .ok (st1, out) ∧
      st1.requesterBalance + cfg.price_per_request = st.requesterBalance ∧
      st1.treasuryBalance = st.treasuryBalance + cfg.price_per_request ∧
      ledgerAfter cfg st req = st1 ∧
      emittedOutput cfg st req = some out) ∨
    ((∃ e, processGenerate cfg st req = .error e) ∧
      ledgerAfter cfg st req = st ∧ emittedOutput cfg st req = none) := by
  by_cases h0 : req.tag = .INITIALIZE_PROGRAM
  · right
    have hp : processGenerate cfg st req = .error .unknownTag := by
      simp [processGenerate, h0]
    exact ⟨⟨_, hp⟩, by simp [ledgerAfter, hp], by simp [emittedOutput, hp]⟩
  · by_cases h1 : req.treasuryAccount = cfg.treasury_token_account
    · by_cases h2 : req.clockAvailable = false
      · right
        have hp : processGenerate cfg st req = .error .entropyUnavailable := by
          simp [processGenerate, h0, h1, h2]
        exact ⟨⟨_, hp⟩, by simp [ledgerAfter, hp], by simp [emittedOutput, hp]⟩
      · by_cases h3 : st.requesterBalance < cfg.price_per_request
        · right
          have hp : processGenerate cfg st req = .error .insufficientBalance := by
            simp [processGenerate, debit_and_credit, h0, h1, h2, h3]
          exact ⟨⟨_, hp⟩, by simp [ledgerAfter, hp],
            by simp [emittedOutput, hp]⟩
        · left
          have hp : processGenerate cfg st req =
              .ok (⟨st.requesterBalance - cfg.price_per_request,
                    st.treasuryBalance + cfg.price_per_request⟩,
                   formatOutputBytes req.tag req.entropyWord) := by
            simp [processGenerate, debit_and_credit, h0, h1, h2, h3]
          refine ⟨_, _, hp, ?_, rfl, by simp [ledgerAfter, hp],
            by simp [emittedOutput, hp]⟩
          dsimp only
          omega
    · right
      have hp : processGenerate cfg st req = .error .accountMismatch := by
        simp [processGenerate, h0, h1]
      exact ⟨⟨_, hp⟩, by simp [ledgerAfter, hp], by simp [emittedOutput, hp]⟩

/-- C5: a requester balance exactly equal to the price passes the ledger
gate and ends at 0; a balance strictly below the price fails the transfer
and leaves the balances untouched; and the client's generateRandom
submits no transaction and throws exactly when the fetched balance
(`uiAmount || 0`) is below 1.0. -/
theorem c5_balance_boundary :
    (∀ (st : LedgerState) (price : Nat), st.requesterBalance = price →
      debit_and_credit st price true = .ok ⟨0, st.treasuryBalance + price⟩ ∧
      debitResultState st price true = ⟨0, st.treasuryBalance + price⟩) ∧
    (∀ (st : LedgerState) (price : Nat), st.requesterBalance < price →
      debit_and_credit st price true = .error .insufficientBalance ∧
      debitResultState st price true = st) ∧
    (∀ (α : Type) (a : GenerateAccounts α) (env : ClientEnv)
        (t : QrngInstructionType),
      ((generateRandom a env t).submitted = false ↔
        env.uiAmount.getD 0 < 1) ∧
      (env.uiAmount.getD 0 < 1 →
        (generateRandom a env t).result =
          .error ⟨"Insufficient TSOTCHKE tokens."⟩)) := by
  refine ⟨fun st price h => ?_, fun st price h => ?_, fun α a env t => ?_⟩
  · have hd : debit_and_credit st price true =
        .ok ⟨0, st.treasuryBalance + price⟩ := by
      simp [debit_and_credit, h]
    exact ⟨hd, by simp [debitResultState, hd]⟩
  · have hd : debit_and_credit st price true = .error .insufficientBalance := by
      simp [debit_and_credit, h]
    exact ⟨hd, by simp [debitResultState, hd]⟩
  · by_cases hb : env.uiAmount.getD 0 < 1
    · exact ⟨by simp [generateRandom, hb], fun _ => by simp [generateRandom, hb]⟩
    · refine ⟨?_, fun hcontra => absurd hcontra hb⟩
      cases hr : env.returnData <;> simp [generateRandom, hb, hr]

/-- Witness for C5: balance 7 against price 7 succeeds and ends at 0,
balance 6 against price 7 fails and is unchanged, and a fetched client
balance of 1/2 blocks submission. -/
theorem c5_balance_boundary_witness :
    (⟨7, 3⟩ : LedgerState).requesterBalance = 7 ∧
    debit_and_credit ⟨7, 3⟩ 7 true = .ok ⟨0, 10⟩ ∧
    (⟨6, 3⟩ : LedgerState).requesterBalance < 7 ∧
    debit_and_credit ⟨6, 3⟩ 7 true = .error .insufficientBalance ∧
    debitResultState ⟨6, 3⟩ 7 true = ⟨6, 3⟩ ∧
    ((generateRandom (⟨0, 1, 2, 3, 4, 5⟩ : GenerateAccounts Nat)
        ⟨some (1 / 2), none⟩ .GENERATE_RANDOM_U64).submitted = false ↔
      ((⟨some (1 / 2), none⟩ : ClientEnv).uiAmount.getD 0 < 1)) :=
  ⟨rfl, (c5_balance_boundary.1 ⟨7, 3⟩ 7 rfl).1, by decide,
   (c5_balance_boundary.2.1 ⟨6, 3⟩ 7 (by decide)).1,
   (c5_balance_boundary.2.1 ⟨6, 3⟩ 7 (by decide)).2,
   (c5_balance_boundary.2.2 Nat ⟨0, 1, 2, 3, 4, 5⟩ ⟨some (1 / 2), none⟩
      .GENERATE_RANDOM_U64).1⟩

/-- C8: once the Config singleton exists, a further INITIALIZE_PROGRAM is
rejected with the whole state unchanged, and no instruction — initialize
or generate — ever changes the stored Config. -/
theorem c8_config_write_once (st : ProgramState) (cfg : Config)
    (req : DispatchRequest) (h : st.config = some cfg) :
    (req.tag = .INITIALIZE_PROGRAM →
      dispatch st req = (st, .error .reinitialization)) ∧
    (dispatch st req).1.config = some cfg := by
  have hinit : req.tag = .INITIALIZE_PROGRAM →
      dispatch st req = (st, .error .reinitialization) := by
    intro ht
    simp [dispatch, ht, h]
  refine ⟨hinit, ?_⟩
  cases ht : req.tag
  case INITIALIZE_PROGRAM =>
    rw [hinit ht]
    exact h
  all_goals
    simp only [dispatch, ht, h]
    split
  all_goals simp [h]

/-- Witness for C8 at a concrete initialized state. -/
theorem c8_config_write_once_witness :
    (⟨some ⟨11, 12, 13⟩, ⟨5, 0⟩⟩ : ProgramState).config = some ⟨11, 12, 13⟩ ∧
    dispatch ⟨some ⟨11, 12, 13⟩, ⟨5, 0⟩⟩
        ⟨.INITIALIZE_PROGRAM, ⟨21, 22, 23⟩, 11, true, 42⟩ =
      (⟨some ⟨11, 12, 13⟩, ⟨5, 0⟩⟩, .error .reinitialization) ∧
    (dispatch ⟨some ⟨11, 12, 13⟩, ⟨5, 0⟩⟩
        ⟨.GENERATE_RANDOM_U64, ⟨21, 22, 23⟩, 11, true, 42⟩).1.config =
      some ⟨11, 12, 13⟩ :=
  ⟨rfl,
   (c8_config_write_once ⟨some ⟨11, 12, 13⟩, ⟨5, 0⟩⟩ ⟨11, 12, 13⟩
      ⟨.INITIALIZE_PROGRAM, ⟨21, 22, 23⟩, 11, true, 42⟩ rfl).1 rfl,
   (c8_config_write_once ⟨some ⟨11, 12, 13⟩, ⟨5, 0⟩⟩ ⟨11, 12, 13⟩
      ⟨.GENERATE_RANDOM_U64, ⟨21, 22, 23⟩, 11, true, 42⟩ rfl).2⟩

/-- C10: getTokenBalance never propagates an error — a failed token
account lookup, a failed balance fetch, or an absent uiAmount all yield
the balance 0, and the call always returns some rational. -/
theorem c10_getTokenBalance_total :
    (∀ (env : BalanceEnv) (e : String), env.ata = .error e →
      getTokenBalance env = 0) ∧
    (∀ (env : BalanceEnv) (e : String), env.balanceLookup = .error e →
      getTokenBalance env = 0) ∧
    (∀ env : BalanceEnv, env.balanceLookup = .ok none →
      getTokenBalance env = 0) ∧
    (∀ env : BalanceEnv, ∃ q : ℚ, getTokenBalance env = q) := by
  refine ⟨fun env e h => ?_, fun env e h => ?_, fun env h => ?_,
    fun env => ⟨_, rfl⟩⟩
  · simp [getTokenBalance, getTokenBalanceAttempt, h]
  · cases hata : env.ata <;>
      simp [getTokenBalance, getTokenBalanceAttempt, hata, h]
  · cases hata : env.ata <;>
      simp [getTokenBalance, getTokenBalanceAttempt, hata, h]

/-- Witness for C10 at concrete environments covering each failure. -/
theorem c10_getTokenBalance_total_witness :
    (⟨.error "no account", .ok (some 5)⟩ : BalanceEnv).ata =
      .error "no account" ∧
    getTokenBalance ⟨.error "no account", .ok (some 5)⟩ = 0 ∧
    getTokenBalance ⟨.ok (), .error "lookup failed"⟩ = 0 ∧
    getTokenBalance ⟨.ok (), .ok none⟩ = 0 :=
  ⟨rfl,
   c10_getTokenBalance_total.1 ⟨.error "no account", .ok (some 5)⟩
     "no account" rfl,
   c10_getTokenBalance_total.2.1 ⟨.ok (), .error "lookup failed"⟩
     "lookup failed" rfl,
   c10_getTokenBalance_total.2.2.1 ⟨.ok (), .ok none⟩ rfl⟩

/-- C4: the documented price is 1.0 token at 9 decimals, i.e. 10^9 base
units per request — yet the mainnet-integration walkthrough's balance
check accepts a raw balance of 1,000,000 base units (0.001 tokens at the
documented decimals), which is far below the documented price; the doc
example contradicts the README's "Token Decimals: 9". -/
theorem c4_doc_example_base_units_mismatch :
    pricePerRequestBaseUnits = 10 ^ 9 ∧
    mainnetExampleHasEnoughTokens 1000000 = true ∧
    1000000 < pricePerRequestBaseUnits := by
  refine ⟨rfl, rfl, ?_⟩
  norm_num [pricePerRequestBaseUnits, baseUnitsPerToken, tokenDecimals]

end SolanaQrng
